import Mathlib

/-!
Verification of the GStreamer control-plane app (`src/app.py`): the pipeline
string builder `build_pipeline`, the process lifecycle functions `start_gst` /
`stop_gst` guarded by `GST_LOCK`, and the Flask route handlers `/start`,
`/stop`, `/update`.  Stateful code is embedded as explicit state passing over
`GstState`; the external worker process is modelled by an abstract handle
(`Nat`), with spawn success and worker exit time supplied as parameters.
-/

namespace GstPoc

/-- A feed from the configuration catalog: a dict with `name` and `url`. -/
structure Feed where
  name : String
  url : String
  deriving DecidableEq, Repr

/-- The `webrtc` settings dict; only the `stun_server` key is read
(`webrtc.get('stun_server', default)`), so it is an optional field. -/
structure Webrtc where
  stun_server : Option String
  deriving DecidableEq, Repr

/-- `feed_map = {f['name']: f['url'] for f in feeds}` followed by lookup of
`name`.  A Python dict comprehension lets a later entry overwrite an earlier
one with the same name, so the lookup finds the last matching catalog entry. -/
def feed_map_find (feeds : List Feed) (name : String) : Option String :=
  (feeds.reverse.find? (fun f => f.name == name)).map Feed.url

/-- `selected_urls = [feed_map[name] for name in composite if name in feed_map]`. -/
def selected_urls (feeds : List Feed) (composite : List String) : List String :=
  composite.filterMap (feed_map_find feeds)

/-- The per-source decode chain emitted for slot `idx` and source `url`
(the f-string `src` inside the loop of `build_pipeline`). -/
def decode_chain (idx : Nat) (url : String) : String :=
  "rtspsrc location=" ++ url ++
    " latency=100 ! rtph264depay ! h264parse ! avdec_h264 ! videoconvert ! videoscale ! video/x-raw,width=640,height=360 ! queue name=q"
    ++ toString idx

/-- `pipeline_parts`: one decode chain per selected url, indexed by
`enumerate(selected_urls)`. -/
def pipeline_parts (selected : List String) : List String :=
  selected.enum.map (fun p => decode_chain p.1 p.2)

/-- The sink-position fragment appended for sink `i` inside the compositor
loop: `f"sink_{i}::xpos={xpos} sink_{i}::ypos={ypos} "` with
`xpos = (i % 3) * 640` and `ypos = (i // 3) * 360`. -/
def sink_pos (i : Nat) : String :=
  "sink_" ++ toString i ++ "::xpos=" ++ toString ((i % 3) * 640) ++
    " sink_" ++ toString i ++ "::ypos=" ++ toString ((i / 3) * 360) ++ " "

/-- The encode/packetize/webrtcbin tail appended to the compositor string. -/
def encode_tail : String :=
  "! videoconvert ! x264enc tune=zerolatency bitrate=2048 speed-preset=ultrafast ! rtph264pay ! queue ! webrtcbin bundle-policy=max-bundle name=sendrecv "

/-- The compositor string: hard-coded `sink_0` at (0,0), then the loop
`for i in range(1, len(selected_urls))` appending `sink_pos i`, then the
encode tail. -/
def compositor_str (n : Nat) : String :=
  "compositor name=mix sink_0::xpos=0 sink_0::ypos=0 " ++
    String.join (((List.range n).drop 1).map sink_pos) ++ encode_tail

/-- Default STUN server used by `webrtc.get('stun_server', ...)`. -/
def STUN_DEFAULT : String := "stun:stun.l.google.com:19302"

/-- `build_pipeline(feeds, composite, webrtc)`: raises
`ValueError("No valid feeds selected for composite.")` when no selected feed
resolves, otherwise returns
`" ".join(pipeline_parts) + f" {compositor} {webrtc_signaling}"`. -/
def build_pipeline (feeds : List Feed) (composite : List String) (webrtc : Webrtc) :
    Except String String :=
  let selected := selected_urls feeds composite
  if selected.isEmpty then
    Except.error "No valid feeds selected for composite."
  else
    let stun := webrtc.stun_server.getD STUN_DEFAULT
    let webrtc_signaling := "sendrecv.stun-server=" ++ stun
    Except.ok (String.intercalate " " (pipeline_parts selected) ++ " " ++
      compositor_str selected.length ++ " " ++ webrtc_signaling)

/-- The manager's mutable state: `gst_process` is the global `GST_PROCESS`
(an abstract handle id, `none` when idle); `live` records the handles of
worker processes that have been spawned and not yet sent `terminate()`;
`next_id` supplies fresh handle ids for new spawns. -/
structure GstState where
  gst_process : Option Nat
  live : List Nat
  next_id : Nat
  deriving DecidableEq, Repr

/-- The initial module state: `GST_PROCESS = None`, no live worker. -/
def init : GstState := ⟨none, [], 0⟩

/-- `start_gst(feeds, composite, webrtc)`: build the pipeline (returning
`False` on a build exception, state untouched); then, under `GST_LOCK`,
return `False` if `GST_PROCESS` is set, else `Popen` a worker (spawn success
is the environment parameter `spawnOk`; on a spawn exception `GST_PROCESS`
is reset to `None` and `False` returned). -/
def start_gst (feeds : List Feed) (composite : List String) (webrtc : Webrtc)
    (spawnOk : Bool) (s : GstState) : Bool × GstState :=
  match build_pipeline feeds composite webrtc with
  | Except.error _ => (false, s)
  | Except.ok _ =>
    match s.gst_process with
    | some _ => (false, s)
    | none =>
      if spawnOk then
        (true, { gst_process := some s.next_id, live := s.next_id :: s.live,
                 next_id := s.next_id + 1 })
      else
        (false, { s with gst_process := none })

/-- `GST_PROCESS.wait(timeout=5)` bound. -/
def GST_STOP_TIMEOUT : Nat := 5

/-- Observable outcome of `stop_gst`: `ok` is its return value; `timedOut`
records whether `wait(timeout=5)` raised (the exception is caught and only
logged). -/
structure StopOutcome where
  ok : Bool
  timedOut : Bool
  deriving DecidableEq, Repr

/-- `stop_gst()`: under `GST_LOCK`, if `GST_PROCESS` is set then `terminate()`
it, wait up to 5 seconds (a timeout is caught and logged, not rethrown),
clear `GST_PROCESS`, and return `True`; otherwise return `False`.  The
worker's exit time is the environment parameter `exitTime`. -/
def stop_gst (exitTime : Nat) (s : GstState) : StopOutcome × GstState :=
  match s.gst_process with
  | some h =>
    (⟨true, decide (GST_STOP_TIMEOUT < exitTime)⟩,
      { s with gst_process := none, live := s.live.erase h })
  | none => (⟨false, false⟩, s)

/-- An HTTP reply: status code and the `status` tag of the JSON body. -/
abbrev HttpResponse := Nat × String

/-- The `/start` handler: `start_gst` with the configured feeds/composite,
`200 started` on `True`, `400 already running or error` on `False`. -/
def start_route (feeds : List Feed) (composite : List String) (webrtc : Webrtc)
    (spawnOk : Bool) (s : GstState) : HttpResponse × GstState :=
  let r := start_gst feeds composite webrtc spawnOk s
  if r.1 then ((200, "started"), r.2) else ((400, "already running or error"), r.2)

/-- The `/stop` handler: `200 stopped` on `True`, `400 not running` on `False`. -/
def stop_route (exitTime : Nat) (s : GstState) : HttpResponse × GstState :=
  let r := stop_gst exitTime s
  if r.1.ok then ((200, "stopped"), r.2) else ((400, "not running"), r.2)

/-- The value of `data.get('composite')` in the `/update` handler: absent
(`None`), present but not a list, or a list of names. -/
inductive CompositeField where
  | missing
  | notList
  | list (names : List String)
  deriving DecidableEq, Repr

/-- The `/update` handler: `stop_gst()` unconditionally, then reject with
`400 invalid composite` unless the field is a non-empty list
(`not composite or not isinstance(composite, list)`), then `start_gst` with
the new composite: `200 updated` on `True`, `500 failed to update` on
`False`. -/
def update_route (field : CompositeField) (feeds : List Feed) (webrtc : Webrtc)
    (spawnOk : Bool) (exitTime : Nat) (s : GstState) : HttpResponse × GstState :=
  let s1 := (stop_gst exitTime s).2
  match field with
  | CompositeField.list names =>
    if names.isEmpty then ((400, "invalid composite"), s1)
    else
      let r := start_gst feeds names webrtc spawnOk s1
      if r.1 then ((200, "updated"), r.2) else ((500, "failed to update"), r.2)
  | _ => ((400, "invalid composite"), s1)

/-- One mutating API invocation, with its environment inputs. -/
inductive Op where
  | opStart (feeds : List Feed) (composite : List String) (webrtc : Webrtc) (spawnOk : Bool)
  | opStop (exitTime : Nat)
  | opUpdate (field : CompositeField) (feeds : List Feed) (webrtc : Webrtc)
      (spawnOk : Bool) (exitTime : Nat)

/-- State effect of one operation. -/
def applyOp (s : GstState) : Op → GstState
  | Op.opStart feeds composite webrtc spawnOk => (start_gst feeds composite webrtc spawnOk s).2
  | Op.opStop exitTime => (stop_gst exitTime s).2
  | Op.opUpdate field feeds webrtc spawnOk exitTime =>
      (update_route field feeds webrtc spawnOk exitTime s).2

/-- State after a sequence of operations from the initial state. -/
def run (ops : List Op) : GstState := ops.foldl applyOp init

/-- Process-uniqueness invariant: the live workers are exactly the (at most
one) handle held in `GST_PROCESS`. -/
def HandleInv (s : GstState) : Prop := s.live = s.gst_process.toList

/-- Example catalog used in the spec's scenario. -/
def exCatalog : List Feed := [⟨"cam1", "urlA"⟩, ⟨"cam2", "urlB"⟩, ⟨"cam3", "urlC"⟩]

/-- A state with one running worker (handle 0), as reached after one
successful `start_gst` from `init`. -/
def runningState : GstState := ⟨some 0, [0], 1⟩

theorem handleInv_start (feeds : List Feed) (composite : List String) (webrtc : Webrtc)
    (spawnOk : Bool) (s : GstState) (h : HandleInv s) :
    HandleInv (start_gst feeds composite webrtc spawnOk s).2 := by
  unfold start_gst
  cases hb : build_pipeline feeds composite webrtc with
  | error e => exact h
  | ok p =>
    cases hp : s.gst_process with
    | some k => exact h
    | none =>
      have hl : s.live = [] := by simp [HandleInv, hp] at h; exact h
      cases spawnOk with
      | true => simp [HandleInv, hl]
      | false => simp [HandleInv, hl]

theorem handleInv_stop (exitTime : Nat) (s : GstState) (h : HandleInv s) :
    HandleInv (stop_gst exitTime s).2 := by
  unfold stop_gst
  cases hp : s.gst_process with
  | none => exact h
  | some k =>
    have hl : s.live = [k] := by simp [HandleInv, hp] at h; exact h
    simp [HandleInv, hl]

theorem handleInv_update (field : CompositeField) (feeds : List Feed) (webrtc : Webrtc)
    (spawnOk : Bool) (exitTime : Nat) (s : GstState) (h : HandleInv s) :
    HandleInv (update_route field feeds webrtc spawnOk exitTime s).2 := by
  have h1 := handleInv_stop exitTime s h
  unfold update_route
  cases field with
  | missing => exact h1
  | notList => exact h1
  | list names =>
    cases hn : names.isEmpty with
    | true => simpa [hn] using h1
    | false =>
      have h2 := handleInv_start feeds names webrtc spawnOk (stop_gst exitTime s).2 h1
      rcases hr : start_gst feeds names webrtc spawnOk (stop_gst exitTime s).2 with ⟨ok, s2⟩
      rw [hr] at h2
      cases ok <;> simp [hn, hr] <;> exact h2

/-- C1: in every state reachable from the initial state by any sequence of
start, stop, and update operations, at most one worker process is live, and
the manager's `GST_PROCESS` handle is either `None` (no live worker) or
exactly the single live worker — no operation ever creates a second running
worker. -/
theorem process_uniqueness (ops : List Op) :
    (run ops).live.length ≤ 1 ∧ (run ops).live = (run ops).gst_process.toList := by
  have key : ∀ (l : List Op) (s : GstState), HandleInv s → HandleInv (l.foldl applyOp s) := by
    intro l
    induction l with
    | nil => intro s h; exact h
    | cons op rest ih =>
      intro s h
      refine ih _ ?_
      cases op with
      | opStart f c w ok => exact handleInv_start f c w ok s h
      | opStop et => exact handleInv_stop et s h
      | opUpdate fl f w ok et => exact handleInv_update fl f w ok et s h
  have h : HandleInv (run ops) := key ops init rfl
  refine ⟨?_, h⟩
  rw [HandleInv] at h
  rw [h]
  cases (run ops).gst_process <;> simp

theorem filterMap_eq_filter_map_getD {α β : Type} (f : α → Option β) (d : β) (l : List α) :
    l.filterMap f = (l.filter (fun a => (f a).isSome)).map (fun a => (f a).getD d) := by
  induction l with
  | nil => rfl
  | cons a t ih =>
    cases hf : f a with
    | none => simp [List.filterMap_cons, List.filter_cons, hf, ih]
    | some b => simp [List.filterMap_cons, List.filter_cons, hf, ih]

/-- C2: the urls retained by `build_pipeline` are exactly the selection
entries whose names appear in the catalog, in selection order (unknown names
silently dropped), and the slot indices enumerate the filtered selection
contiguously from 0; on the spec's scenario, catalog
`cam1/cam2/cam3` with selection `[cam1, cam3, cam9]` retains `cam1` at
slot 0 and `cam3` at slot 1, `cam9` dropped. -/
theorem plan_filters_selection (feeds : List Feed) (composite : List String) :
    (selected_urls feeds composite
        = (composite.filter (fun n => (feed_map_find feeds n).isSome)).map
            (fun n => (feed_map_find feeds n).getD ""))
    ∧ ((selected_urls feeds composite).enum.map Prod.fst
        = List.range (selected_urls feeds composite).length)
    ∧ (selected_urls exCatalog ["cam1", "cam3", "cam9"]).enum = [(0, "urlA"), (1, "urlC")]
    ∧ pipeline_parts (selected_urls exCatalog ["cam1", "cam3", "cam9"])
        = [decode_chain 0 "urlA", decode_chain 1 "urlC"] :=
  ⟨filterMap_eq_filter_map_getD _ _ _, List.enum_map_fst _, by decide, by decide⟩

theorem start_gst_no_valid_feeds (feeds : List Feed) (composite : List String)
    (webrtc : Webrtc) (spawnOk : Bool) (s : GstState)
    (h : composite.all (fun n => (feed_map_find feeds n).isNone) = true) :
    build_pipeline feeds composite webrtc
        = Except.error "No valid feeds selected for composite."
    ∧ start_gst feeds composite webrtc spawnOk s = (false, s) := by
  have hsel : selected_urls feeds composite = [] := by
    refine List.filterMap_eq_nil_iff.mpr ?_
    intro n hn
    have := List.all_eq_true.mp h n hn
    exact Option.isNone_iff_eq_none.mp this
  have hb : build_pipeline feeds composite webrtc
      = Except.error "No valid feeds selected for composite." := by
    simp [build_pipeline, hsel]
  exact ⟨hb, by simp [start_gst, hb]⟩

/-- C4: a selection that is empty or contains only names absent from the
catalog makes `build_pipeline` fail with the no-valid-feeds `ValueError`,
and the corresponding `start_gst` returns `False` with the manager state
completely unchanged (no worker spawned). -/
theorem no_valid_feeds_rejected (feeds : List Feed) (composite : List String)
    (webrtc : Webrtc) (spawnOk : Bool) (s : GstState)
    (h : composite.all (fun n => (feed_map_find feeds n).isNone) = true) :
    build_pipeline feeds composite webrtc
        = Except.error "No valid feeds selected for composite."
    ∧ start_gst feeds composite webrtc spawnOk s = (false, s) :=
  start_gst_no_valid_feeds feeds composite webrtc spawnOk s h

/-- Witness for C4 at selection `["cam9"]` against the example catalog. -/
theorem no_valid_feeds_rejected_witness :
    (["cam9"].all (fun n => (feed_map_find exCatalog n).isNone) = true)
    ∧ (build_pipeline exCatalog ["cam9"] ⟨none⟩
          = Except.error "No valid feeds selected for composite."
       ∧ start_gst exCatalog ["cam9"] ⟨none⟩ true init = (false, init)) :=
  ⟨by decide, no_valid_feeds_rejected exCatalog ["cam9"] ⟨none⟩ true init (by decide)⟩

/-- C5: starting while a worker is running is a pure no-op: `start_gst`
returns `False` with the state unchanged (same handle held afterwards, the
worker is neither killed nor replaced), and the `/start` route reports the
already-running failure `400`. -/
theorem start_while_running_noop (feeds : List Feed) (composite : List String)
    (webrtc : Webrtc) (spawnOk : Bool) (s : GstState) (h : Nat)
    (hh : s.gst_process = some h) :
    start_gst feeds composite webrtc spawnOk s = (false, s)
    ∧ (start_gst feeds composite webrtc spawnOk s).2.gst_process = some h
    ∧ start_route feeds composite webrtc spawnOk s
        = ((400, "already running or error"), s) := by
  have h1 : start_gst feeds composite webrtc spawnOk s = (false, s) := by
    unfold start_gst
    cases build_pipeline feeds composite webrtc with
    | error e => rfl
    | ok p => rw [hh]
  refine ⟨h1, by rw [h1]; exact hh, ?_⟩
  simp [start_route, h1]

/-- Witness for C5 in the canonical running state. -/
theorem start_while_running_noop_witness :
    runningState.gst_process = some 0
    ∧ (start_gst exCatalog ["cam1"] ⟨none⟩ true runningState = (false, runningState)
       ∧ (start_gst exCatalog ["cam1"] ⟨none⟩ true runningState).2.gst_process = some 0
       ∧ start_route exCatalog ["cam1"] ⟨none⟩ true runningState
           = ((400, "already running or error"), runningState)) :=
  ⟨rfl, start_while_running_noop exCatalog ["cam1"] ⟨none⟩ true runningState 0 rfl⟩

theorem string_join_cons (a : String) (l : List String) :
    String.join (a :: l) = a ++ String.join l := by
  simp [String.join_eq, String.ext_iff]

theorem compositor_str_range (n : Nat) (h : n ≠ 0) :
    compositor_str n
      = "compositor name=mix " ++ String.join ((List.range n).map sink_pos) ++ encode_tail := by
  obtain ⟨m, rfl⟩ := Nat.exists_eq_succ_of_ne_zero h
  have hsplit : List.range (m + 1) = 0 :: List.range' 1 m := by
    rw [List.range_eq_range']
    rfl
  rw [compositor_str, hsplit]
  simp only [List.drop_succ_cons, List.drop_zero, List.map_cons, string_join_cons]
  have h0 : "compositor name=mix sink_0::xpos=0 sink_0::ypos=0 "
      = "compositor name=mix " ++ sink_pos 0 := by decide
  rw [h0]
  simp [String.append_assoc]

/-- C3: for a non-empty filtered selection the built description is, in
order, the per-source decode chains, then the compositing/encode stage, then
the transport settings; the compositing stage positions every slot `i`
(slot 0 included, anchored at (0,0)) by the grid formula
`x = (i % 3) * 640`, `y = (i / 3) * 360`. -/
theorem build_layout_and_order (feeds : List Feed) (composite : List String) (webrtc : Webrtc)
    (h : (selected_urls feeds composite).isEmpty = false) :
    (build_pipeline feeds composite webrtc
      = Except.ok (String.intercalate " " (pipeline_parts (selected_urls feeds composite))
          ++ " " ++ compositor_str (selected_urls feeds composite).length
          ++ " " ++ ("sendrecv.stun-server=" ++ webrtc.stun_server.getD STUN_DEFAULT)))
    ∧ (compositor_str (selected_urls feeds composite).length
        = "compositor name=mix "
          ++ String.join ((List.range (selected_urls feeds composite).length).map sink_pos)
          ++ encode_tail)
    ∧ sink_pos 0 = "sink_0::xpos=0 sink_0::ypos=0 "
    ∧ sink_pos 1 = "sink_1::xpos=640 sink_1::ypos=0 "
    ∧ sink_pos 3 = "sink_3::xpos=0 sink_3::ypos=360 "
    ∧ sink_pos 4 = "sink_4::xpos=640 sink_4::ypos=360 " := by
  have hne : (selected_urls feeds composite).length ≠ 0 := by
    intro h0
    rw [List.length_eq_zero] at h0
    rw [h0] at h
    simp at h
  refine ⟨?_, compositor_str_range _ hne, by decide, by decide, by decide, by decide⟩
  rw [build_pipeline]
  simp [h]

/-- Witness for C3 on the spec's scenario selection. -/
theorem build_layout_and_order_witness :
    ((selected_urls exCatalog ["cam1", "cam3", "cam9"]).isEmpty = false)
    ∧ ((build_pipeline exCatalog ["cam1", "cam3", "cam9"] ⟨none⟩
          = Except.ok (String.intercalate " "
              (pipeline_parts (selected_urls exCatalog ["cam1", "cam3", "cam9"]))
              ++ " " ++ compositor_str (selected_urls exCatalog ["cam1", "cam3", "cam9"]).length
              ++ " " ++ ("sendrecv.stun-server="
                  ++ (Webrtc.mk none).stun_server.getD STUN_DEFAULT)))
       ∧ (compositor_str (selected_urls exCatalog ["cam1", "cam3", "cam9"]).length
            = "compositor name=mix "
              ++ String.join
                  ((List.range (selected_urls exCatalog ["cam1", "cam3", "cam9"]).length).map
                    sink_pos)
              ++ encode_tail)
       ∧ sink_pos 0 = "sink_0::xpos=0 sink_0::ypos=0 "
       ∧ sink_pos 1 = "sink_1::xpos=640 sink_1::ypos=0 "
       ∧ sink_pos 3 = "sink_3::xpos=0 sink_3::ypos=360 "
       ∧ sink_pos 4 = "sink_4::xpos=640 sink_4::ypos=360 ") :=
  ⟨by decide, build_layout_and_order exCatalog ["cam1", "cam3", "cam9"] ⟨none⟩ (by decide)⟩

/-- C6: stopping a running worker always returns `True`, clears the handle
(state `Idle`), and the `/stop` route reports `200 stopped`; a worker that
outlives the 5-unit `wait` timeout only sets the logged `timedOut` signal,
never turning the stop into a failure. -/
theorem stop_running_always_succeeds (s : GstState) (h : Nat) (exitTime : Nat)
    (hh : s.gst_process = some h) :
    (stop_gst exitTime s).1.ok = true
    ∧ (stop_gst exitTime s).2.gst_process = none
    ∧ stop_route exitTime s = ((200, "stopped"), (stop_gst exitTime s).2)
    ∧ (stop_gst exitTime s).1.timedOut = decide (GST_STOP_TIMEOUT < exitTime) := by
  unfold stop_route stop_gst
  rw [hh]
  simp

/-- Witness for C6 with a worker that does not exit within the timeout. -/
theorem stop_running_always_succeeds_witness :
    runningState.gst_process = some 0
    ∧ ((stop_gst 10 runningState).1.ok = true
       ∧ (stop_gst 10 runningState).2.gst_process = none
       ∧ stop_route 10 runningState = ((200, "stopped"), (stop_gst 10 runningState).2)
       ∧ (stop_gst 10 runningState).1.timedOut = decide (GST_STOP_TIMEOUT < 10)) :=
  ⟨rfl, stop_running_always_succeeds runningState 0 10 rfl⟩

/-- C7: from any state with a running worker, two consecutive `/stop` calls
answer `200 stopped` then `400 not running`, and the manager is idle
(`GST_PROCESS = None`) after each call. -/
theorem stop_twice (s : GstState) (h : Nat) (t1 t2 : Nat)
    (hh : s.gst_process = some h) :
    (stop_route t1 s).1 = (200, "stopped")
    ∧ (stop_route t1 s).2.gst_process = none
    ∧ (stop_route t2 (stop_route t1 s).2).1 = (400, "not running")
    ∧ (stop_route t2 (stop_route t1 s).2).2.gst_process = none := by
  unfold stop_route stop_gst
  rw [hh]
  simp

/-- Witness for C7 in the canonical running state. -/
theorem stop_twice_witness :
    runningState.gst_process = some 0
    ∧ ((stop_route 0 runningState).1 = (200, "stopped")
       ∧ (stop_route 0 runningState).2.gst_process = none
       ∧ (stop_route 3 (stop_route 0 runningState).2).1 = (400, "not running")
       ∧ (stop_route 3 (stop_route 0 runningState).2).2.gst_process = none) :=
  ⟨rfl, stop_twice runningState 0 0 3 rfl⟩

/-- C8: a `/update` request whose composite field is missing, not a list, or
an empty list answers `400 invalid composite`, with the state exactly the
post-stop state of the unconditional `stop_gst()` (so any running worker is
already stopped, the handle is clear, and no spawn was attempted: `next_id`
is unchanged). -/
theorem update_invalid_composite (field : CompositeField) (feeds : List Feed)
    (webrtc : Webrtc) (spawnOk : Bool) (exitTime : Nat) (s : GstState)
    (h : field = CompositeField.missing ∨ field = CompositeField.notList
        ∨ field = CompositeField.list []) :
    update_route field feeds webrtc spawnOk exitTime s
        = ((400, "invalid composite"), (stop_gst exitTime s).2)
    ∧ (update_route field feeds webrtc spawnOk exitTime s).2.gst_process = none
    ∧ (update_route field feeds webrtc spawnOk exitTime s).2.next_id = s.next_id := by
  have h2 : (stop_gst exitTime s).2.gst_process = none := by
    unfold stop_gst
    cases hp : s.gst_process <;> simp [hp]
  have h3 : (stop_gst exitTime s).2.next_id = s.next_id := by
    unfold stop_gst
    cases hp : s.gst_process <;> simp [hp]
  have h1 : update_route field feeds webrtc spawnOk exitTime s
      = ((400, "invalid composite"), (stop_gst exitTime s).2) := by
    rcases h with rfl | rfl | rfl <;> rfl
  exact ⟨h1, by rw [h1]; exact h2, by rw [h1]; exact h3⟩

/-- Witness for C8 with an empty composite list against a running worker. -/
theorem update_invalid_composite_witness :
    (CompositeField.list [] = CompositeField.missing
      ∨ CompositeField.list [] = CompositeField.notList
      ∨ CompositeField.list ([] : List String) = CompositeField.list [])
    ∧ (update_route (CompositeField.list []) exCatalog ⟨none⟩ true 0 runningState
          = ((400, "invalid composite"), (stop_gst 0 runningState).2)
       ∧ (update_route (CompositeField.list []) exCatalog ⟨none⟩ true 0
            runningState).2.gst_process = none
       ∧ (update_route (CompositeField.list []) exCatalog ⟨none⟩ true 0
            runningState).2.next_id = runningState.next_id) :=
  ⟨Or.inr (Or.inr rfl),
    update_invalid_composite (CompositeField.list []) exCatalog ⟨none⟩ true 0 runningState
      (Or.inr (Or.inr rfl))⟩

/-- C9 counterexample: a `/update` whose composite is the non-empty list
`["cam9"]` with no catalog names answers HTTP status 500, which is not in
the 4xx range. -/
theorem update_unknown_feeds_counterexample :
    (update_route (CompositeField.list ["cam9"]) exCatalog ⟨none⟩ true 0
        runningState).1.1 = 500
    ∧ ¬(400 ≤ (update_route (CompositeField.list ["cam9"]) exCatalog ⟨none⟩ true 0
            runningState).1.1
        ∧ (update_route (CompositeField.list ["cam9"]) exCatalog ⟨none⟩ true 0
            runningState).1.1 ≤ 499) := by
  decide

/-- C9 (amended): a `/update` whose composite is a non-empty list containing
no catalog names fails `build_pipeline` with the no-valid-feeds error inside
`start_gst`, and the handler answers `500 failed to update` (not 4xx), with
the state the post-stop state. -/
theorem update_unknown_feeds_500 (feeds : List Feed) (webrtc : Webrtc) (spawnOk : Bool)
    (exitTime : Nat) (s : GstState) (names : List String)
    (hne : names.isEmpty = false)
    (hunk : names.all (fun n => (feed_map_find feeds n).isNone) = true) :
    update_route (CompositeField.list names) feeds webrtc spawnOk exitTime s
      = ((500, "failed to update"), (stop_gst exitTime s).2) := by
  have hb := (start_gst_no_valid_feeds feeds names webrtc spawnOk (stop_gst exitTime s).2
    hunk).2
  unfold update_route
  simp [hne, hb]

/-- Witness for C9's amended statement at composite `["cam9"]`. -/
theorem update_unknown_feeds_500_witness :
    (["cam9"].isEmpty = false)
    ∧ ((["cam9"].all (fun n => (feed_map_find exCatalog n).isNone)) = true)
    ∧ update_route (CompositeField.list ["cam9"]) exCatalog ⟨none⟩ true 0 init
        = ((500, "failed to update"), (stop_gst 0 init).2) :=
  ⟨rfl, by decide,
    update_unknown_feeds_500 exCatalog ⟨none⟩ true 0 init ["cam9"] rfl (by decide)⟩

theorem count_le_count_selected (feeds : List Feed) (name u : String)
    (h : feed_map_find feeds name = some u) (composite : List String) :
    composite.count name ≤ (selected_urls feeds composite).count u := by
  induction composite with
  | nil => simp [selected_urls]
  | cons a t ih =>
    rw [List.count_cons]
    unfold selected_urls at ih ⊢
    rw [List.filterMap_cons]
    cases hf : feed_map_find feeds a with
    | none =>
      have hne : (a == name) = false := by
        refine beq_eq_false_iff_ne.mpr ?_
        intro ha
        rw [ha, h] at hf
        cases hf
      simp only [hne, if_false, Bool.false_eq_true, Nat.add_zero]
      exact ih
    | some v =>
      rw [List.count_cons]
      by_cases hb : a = name
      · have hv : u = v := by
          rw [hb, h] at hf
          injection hf
        rw [← hv]
        simp only [hb, beq_self_eq_true, if_true]
        omega
      · have hne : (a == name) = false := by simp [hb]
        simp only [hne, if_false, Bool.false_eq_true, Nat.add_zero]
        have : (List.filterMap (feed_map_find feeds) t).count u
            ≤ (v :: List.filterMap (feed_map_find feeds) t).count u := by
          rw [List.count_cons]
          omega
        omega

/-- C10: duplicate names in the selection are retained, not deduplicated:
every occurrence of a known name contributes its own retained url (the
retained count is at least the selection count), the number of decode
chains equals the number of retained entries, and concretely
`["cam1", "cam1"]` against a one-feed catalog yields two decode chains for
`urlA` at slots 0 and 1. -/
theorem duplicates_retained (feeds : List Feed) (composite : List String) (name u : String)
    (h : feed_map_find feeds name = some u) :
    composite.count name ≤ (selected_urls feeds composite).count u
    ∧ (selected_urls feeds composite).length
        = (composite.filter (fun n => (feed_map_find feeds n).isSome)).length
    ∧ selected_urls [⟨"cam1", "urlA"⟩] ["cam1", "cam1"] = ["urlA", "urlA"]
    ∧ pipeline_parts ["urlA", "urlA"] = [decode_chain 0 "urlA", decode_chain 1 "urlA"] := by
  refine ⟨count_le_count_selected feeds name u h composite, ?_, by decide, by decide⟩
  rw [selected_urls, filterMap_eq_filter_map_getD (feed_map_find feeds) "" composite,
    List.length_map]

/-- Witness for C10 with a duplicated known name. -/
theorem duplicates_retained_witness :
    feed_map_find [⟨"cam1", "urlA"⟩] "cam1" = some "urlA"
    ∧ ((["cam1", "cam1", "cam2"].count "cam1"
          ≤ (selected_urls [⟨"cam1", "urlA"⟩] ["cam1", "cam1", "cam2"]).count "urlA")
       ∧ (selected_urls [⟨"cam1", "urlA"⟩] ["cam1", "cam1", "cam2"]).length
           = (["cam1", "cam1", "cam2"].filter
               (fun n => (feed_map_find [⟨"cam1", "urlA"⟩] n).isSome)).length
       ∧ selected_urls [⟨"cam1", "urlA"⟩] ["cam1", "cam1"] = ["urlA", "urlA"]
       ∧ pipeline_parts ["urlA", "urlA"] = [decode_chain 0 "urlA", decode_chain 1 "urlA"]) :=
  ⟨by decide,
    duplicates_retained [⟨"cam1", "urlA"⟩] ["cam1", "cam1", "cam2"] "cam1" "urlA" (by decide)⟩

end GstPoc
